import Mathlib

/-!
Shallow embedding of `MediaPlayer.py` from the plex-music-rating-sync
repository: the abstract backend contract (`MediaPlayer`), the local-storage
adapter (`MediaMonkey`, an SQLite-backed player) and the remote-service
adapter (`PlexPlayer`), together with the rating-normalization arithmetic,
the recursive playlist traversal, the multi-mode search dispatch and the
authentication retry loop.

Ratings are modelled as rationals (Python floats at the scales 5/10/100 with
the divisions the code performs are exact).  Python exceptions are modelled
by an explicit error type; functions that can raise return `Except`.
-/

set_option linter.unusedVariables false

namespace PlexSync

/-- Python exceptions raised (or raisable) by the code under study. -/
inductive PyErr where
  /-- `ValueError`, raised by `search_tracks` on an empty/falsy value. -/
  | valueError : String → PyErr
  /-- `KeyError`, raised by `search_tracks` on an unrecognized mode key. -/
  | keyError : String → PyErr
  /-- `NotImplementedError`, raised by the unimplemented MediaMonkey
  playlist operations. -/
  | notImplementedError : PyErr
  /-- `IndexError`, raised by the unguarded `[0]` selection in the
  `PlexPlayer.update_rating` fallback path. -/
  | indexError : PyErr
  /-- `NameError`: a name is looked up that is not bound in the enclosing
  scopes (e.g. `sqlite3` at module level, since `import sqlite3` happens
  inside `MediaMonkey.connect` and is local to that function). -/
  | nameError : String → PyErr
  /-- `AttributeError` on an attribute access (e.g. `True.strip()`). -/
  | attributeError : String → PyErr
  deriving DecidableEq, Repr

/-- The `value` argument of `search_tracks` is typed `Union[bool, str]`. -/
inductive SVal where
  | b : Bool → SVal
  | s : String → SVal
  deriving DecidableEq, Repr

/-- Python truthiness of a `Union[bool, str]` value: `False` and `""` are
falsy (`if not value: raise ValueError`). -/
def SVal.truthy : SVal → Bool
  | .b v => v
  | .s v => v ≠ ""

/-- Modelled from the spec: the Track record owned by the collaborator
module `sync_items` (not under `src/`).  Identity `ID` is backend-native and
opaque, so the record is parametric in the identity type (the local backend
uses integer database ids, the remote backend uses string keys). -/
structure AudioTag (ι : Type) where
  artist : String
  album : String
  title : String
  file_path : String
  /-- normalized rating in the internal representation -/
  rating : ℚ
  ID : ι
  /-- track sequence number -/
  track : Int
  deriving DecidableEq, Repr

/-- Modelled from the spec: the Playlist record owned by the collaborator
module `sync_items` (not under `src/`): a name, a hierarchy label
`parent_name`, an auto-playlist flag and an ordered list of tracks. -/
structure Playlist where
  name : String
  parent_name : String
  is_auto_playlist : Bool
  tracks : List (AudioTag Int)
  deriving DecidableEq, Repr

/-! ## Rating arithmetic of the abstract `MediaPlayer` contract -/

namespace MediaPlayer

/-- `MediaPlayer.rating_maximum` class default. -/
def rating_maximum : ℚ := 5

/-- `get_5star_rating(rating) = rating * 5`. -/
def get_5star_rating (rating : ℚ) : ℚ := rating * 5

/-- `get_native_rating(normed_rating) = normed_rating * rating_maximum`,
parameterized by the instance's `rating_maximum`. -/
def get_native_rating (rating_maximum : ℚ) (normed_rating : ℚ) : ℚ :=
  normed_rating * rating_maximum

/-- `get_normed_rating`: `if (rating or 0) <= 0: rating = 0` then
`rating / rating_maximum`.  A missing rating (`None`) behaves as `0`. -/
def get_normed_rating (rating_maximum : ℚ) (rating : Option ℚ) : ℚ :=
  let r := if rating.getD 0 ≤ 0 then 0 else rating.getD 0
  r / rating_maximum

end MediaPlayer

/-! ## Shared helpers: Python's `in` on strings, SQL ordering -/

/-- Helper for `pyStrContains`: does `pat` occur as a contiguous run in the
character list? -/
def containsAux (pat : List Char) : List Char → Bool
  | [] => pat.isEmpty
  | c :: rest => pat.isPrefixOf (c :: rest) || containsAux pat rest

/-- Python's `pat in s` substring test on strings. -/
def pyStrContains (s pat : String) : Bool := containsAux pat.toList s.toList

/-- Bytewise (code-point) lexicographic `≤` on character lists, modelling
SQLite's default BINARY collation used by `ORDER BY` on text columns. -/
def charListLe : List Char → List Char → Bool
  | [], _ => true
  | _ :: _, [] => false
  | a :: as, b :: bs =>
    if a.toNat < b.toNat then true
    else if b.toNat < a.toNat then false
    else charListLe as bs

/-- Lexicographic `≤` on strings (SQLite BINARY collation). -/
def strLe (a b : String) : Bool := charListLe a.toList b.toList

/-! ## Local-storage backend: `MediaMonkey` -/

namespace MediaMonkey

/-- `MediaMonkey.rating_maximum = 100`. -/
def rating_maximum : ℚ := 100

/-- A row of the `Songs` table (the columns the adapter selects).  SQL
columns are nullable, hence `Option`. -/
structure SongRow where
  ID : Int
  SongTitle : Option String
  Artist : Option String
  Album : Option String
  TrackNumber : Option Int
  Rating : Option ℚ
  SongPath : Option String
  deriving DecidableEq, Repr

/-- A row of the `Playlists` table. -/
structure PlaylistRow where
  IDPlaylist : Int
  PlaylistName : String
  ParentPlaylist : Int
  isAutoPlaylist : Int
  deriving DecidableEq, Repr

/-- A row of the `PlaylistSongs` membership table. -/
structure PlaylistSongRow where
  IDPlaylist : Int
  IDSong : Int
  SongOrder : Int
  deriving DecidableEq, Repr

/-- The MediaMonkey database: the three tables the adapter queries.  Row
order of each list is the table's storage order (the order a query without
`ORDER BY` returns). -/
structure MMDB where
  songs : List SongRow
  playlists : List PlaylistRow
  playlistSongs : List PlaylistSongRow
  deriving DecidableEq, Repr

/-- `_row_to_audiotag`: convert a `Songs` row to an `AudioTag`; `x or ''`
(resp. `or 0`) replaces NULL by the empty string (resp. `0`), and the rating
is normalized against this backend's `rating_maximum` of 100. -/
def _row_to_audiotag (row : SongRow) : AudioTag Int :=
  { artist := row.Artist.getD ""
    album := row.Album.getD ""
    title := row.SongTitle.getD ""
    file_path := row.SongPath.getD ""
    rating := MediaPlayer.get_normed_rating rating_maximum row.Rating
    ID := row.ID
    track := row.TrackNumber.getD 0 }

/-- The sibling order of the child-playlist query:
`ORDER BY PlaylistName` under SQLite's BINARY collation. -/
def byNameLe (a b : PlaylistRow) : Prop := strLe a.PlaylistName b.PlaylistName = true

instance : DecidableRel byNameLe := fun a b => by unfold byNameLe; infer_instance

/-- The membership order of the track query: `ORDER BY ps.SongOrder`. -/
def byOrderLe (a b : PlaylistSongRow) : Prop := a.SongOrder ≤ b.SongOrder

instance : DecidableRel byOrderLe := fun a b => by unfold byOrderLe; infer_instance

/-- The child-playlist query of `read_child_playlists`:
`SELECT ... FROM Playlists WHERE ParentPlaylist = ? ORDER BY PlaylistName`.
The `ORDER BY` is modelled by a stable sort. -/
def childRows (db : MMDB) (parent_id : Int) : List PlaylistRow :=
  List.insertionSort byNameLe
    (db.playlists.filter (fun r => r.ParentPlaylist == parent_id))

/-- The track query of `read_child_playlists`:
`SELECT s.* FROM Songs s INNER JOIN PlaylistSongs ps ON s.ID = ps.IDSong
WHERE ps.IDPlaylist = ? ORDER BY ps.SongOrder`. -/
def playlistTrackRows (db : MMDB) (playlist_id : Int) : List SongRow :=
  (List.insertionSort byOrderLe
      (db.playlistSongs.filter (fun ps => ps.IDPlaylist == playlist_id))).flatMap
    (fun ps => db.songs.filter (fun s => s.ID == ps.IDSong))

/-- `read_child_playlists(parent_id, parent_name)`: recursive descent.  Each
child row (in name order) yields a `Playlist`; for an auto playlist the track
read is skipped (`tracks = []`), otherwise the membership rows are read in
`SongOrder` and converted; then the traversal recurses with the child's name
as the `parent_name` label.  The Python recursion is unbounded (it terminates
on acyclic parent graphs); the embedding takes explicit fuel, and
`read_playlists` supplies fuel exceeding every acyclic descent depth. -/
def read_child_playlists (db : MMDB) : Nat → Int → String → List Playlist
  | 0, _, _ => []
  | fuel + 1, parent_id, parent_name =>
    (childRows db parent_id).flatMap fun row =>
      let is_auto := row.isAutoPlaylist != 0
      { name := row.PlaylistName
        parent_name := parent_name
        is_auto_playlist := is_auto
        tracks := if is_auto then []
                  else (playlistTrackRows db row.IDPlaylist).map _row_to_audiotag } ::
      read_child_playlists db fuel row.IDPlaylist row.PlaylistName

/-- `read_playlists`: the traversal seeded at the root sentinel parent id
`-1` with an empty `parent_name`.  Fuel `|Playlists| + 1` dominates the
depth of every acyclic hierarchy. -/
def read_playlists (db : MMDB) : List Playlist :=
  read_child_playlists db (db.playlists.length + 1) (-1) ""

/-- The SQL predicate `Rating > 0` (NULL compares as unknown: not kept). -/
def sqlGtZero : Option ℚ → Bool
  | some r => decide (0 < r)
  | none => false

/-- `search_tracks(key, value)` for the local backend.  `rawExec` models
`cursor.execute` + `fetchall` for the two raw-SQL branches (custom rating
predicate and free-form query), whose SQL semantics are outside this model;
the other branches are interpreted against the `Songs` table.  In the
`title` branch a boolean value would be bound as an SQL integer, which never
equals a text column.  In the `query` branch a boolean value would raise
`AttributeError` at `value.strip()`. -/
def search_tracks (db : MMDB) (rawExec : String → List SongRow)
    (key : String) (value : SVal) : Except PyErr (List (AudioTag Int)) :=
  if value.truthy = false then .error (.valueError "value can not be empty.")
  else if key = "title" then
    .ok ((db.songs.filter (fun s => match value with
        | .s v => s.SongTitle == some v
        | .b _ => false)).map _row_to_audiotag)
  else if key = "rating" then
    if value = .b true then
      .ok ((db.songs.filter (fun s => sqlGtZero s.Rating)).map _row_to_audiotag)
    else
      match value with
      | .s v => .ok ((rawExec ("SELECT ID, SongTitle, Artist, Album, TrackNumber, Rating, SongPath FROM Songs WHERE Rating " ++ v)).map _row_to_audiotag)
      | .b _ => .ok ((rawExec "SELECT ID, SongTitle, Artist, Album, TrackNumber, Rating, SongPath FROM Songs WHERE Rating ").map _row_to_audiotag)
  else if key = "query" then
    match value with
    | .s v =>
      if (v.trim.toUpper).startsWith "SELECT" then
        .ok ((rawExec v).map _row_to_audiotag)
      else
        .ok ((rawExec ("SELECT ID, SongTitle, Artist, Album, TrackNumber, Rating, SongPath FROM Songs WHERE " ++ v)).map _row_to_audiotag)
    | .b _ => .error (.attributeError "strip")
  else .error (.keyError key)

/-- `create_playlist` of the local backend: unconditionally
`raise NotImplementedError` (the `dry_run` flag of the instance is never
consulted). -/
def create_playlist (dry_run : Bool) (title : String) (tracks : List (AudioTag Int)) :
    Except PyErr (Option Unit) :=
  .error .notImplementedError

/-- `update_playlist` of the local backend: unconditionally
`raise NotImplementedError`. -/
def update_playlist (dry_run : Bool) (playlist : Playlist) (track : AudioTag Int)
    (present : Bool) : Except PyErr Unit :=
  .error .notImplementedError

/-- The sqlite connection handle as far as `update_rating` observes it:
whether it was opened through a `mode=ro` URI, and its `PRAGMA query_only`
flag (which sqlite leaves off by default, also for read-only opens). -/
structure MMConn where
  readOnly : Bool
  queryOnly : Bool
  deriving DecidableEq, Repr

/-- The adapter state that `update_rating` reads: `self.db_path` and the
open connection. -/
structure MMState where
  db_path : String
  conn : MMConn
  deriving DecidableEq, Repr

/-- The successful tail of `MediaMonkey.connect` for an existing database
file at `db_path`: it stores the PLAIN path in `self.db_path` (the
`mode=ro` suffix is appended only to the local `uri` variable,
`'file:...?mode=ro'`, which is not kept) and opens the connection
read-only with the `query_only` pragma at its sqlite default (off). -/
def connect (db_path : String) : MMState :=
  { db_path := db_path, conn := { readOnly := true, queryOnly := false } }

/-- Outcome of `MediaMonkey.update_rating`. -/
inductive MMUpdateOutcome where
  /-- `dry_run` was set: only the debug log line executed. -/
  | dryRunSkipped
  /-- the `'mode=ro' in str(self.db_path)` guard fired: logged and returned
  without mutating. -/
  | readOnlyLogged
  /-- the `UPDATE Songs SET Rating = ? WHERE ID = ?` statement committed,
  writing the given native rating for the given track id. -/
  | committed : Int → ℚ → MMUpdateOutcome
  /-- an exception propagated to the caller; no row was written. -/
  | raised : PyErr → MMUpdateOutcome
  deriving DecidableEq, Repr

/-- `MediaMonkey.update_rating(track, rating)`.  After the dry-run gate and
the `'mode=ro' in str(self.db_path)` guard, the code enters a `try` block.
`import sqlite3` happened inside `connect` and is local to that function, so
the module-level name `sqlite3` is unbound here.  If the handle reports
`PRAGMA query_only = 1`, the reopen `sqlite3.connect(...)` raises
`NameError`; otherwise, executing the UPDATE on a connection opened via a
`mode=ro` URI raises `sqlite3.OperationalError`, and evaluating the handler
clause `except sqlite3.OperationalError` itself raises `NameError`, which
propagates.  Only on a writable connection does the UPDATE commit. -/
def update_rating (dry_run : Bool) (st : MMState) (trackID : Int) (rating : ℚ) :
    MMUpdateOutcome :=
  if dry_run then .dryRunSkipped
  else if pyStrContains st.db_path "mode=ro" then .readOnlyLogged
  else if st.conn.queryOnly then .raised (.nameError "sqlite3")
  else if st.conn.readOnly then .raised (.nameError "sqlite3")
  else .committed trackID (MediaPlayer.get_native_rating rating_maximum rating)

end MediaMonkey

/-! ## Remote-service backend: `PlexPlayer` -/

namespace PlexPlayer

/-- `PlexPlayer.rating_maximum = 10`. -/
def rating_maximum : ℚ := 10

/-- `PlexPlayer.maximum_connection_attempts = 3`. -/
def maximum_connection_attempts : Nat := 3

/-- The fields of a native `plexapi.audio.Track` object that the adapter
reads.  `userRating` of an unrated track is absent. -/
structure PlexTrack where
  grandparentTitle : String
  parentTitle : String
  title : String
  locations : List String
  userRating : Option ℚ
  index : Int
  key : String
  deriving DecidableEq, Repr

/-- `PlexPlayer.read_track_metadata(track)`: maps the native object into an
`AudioTag`, normalizing the rating against `rating_maximum = 10`.  The
access `track.locations[0]` raises `IndexError` when the native object has
no locations. -/
def read_track_metadata (track : PlexTrack) : Except PyErr (AudioTag String) :=
  match track.locations with
  | [] => .error .indexError
  | loc :: _ =>
    .ok { artist := track.grandparentTitle
          album := track.parentTitle
          title := track.title
          file_path := loc
          rating := MediaPlayer.get_normed_rating rating_maximum track.userRating
          ID := track.key
          track := track.index }

/-- The resolved music library on the remote server: the tracks the remote
search operates over. -/
structure PlexLibrary where
  tracks : List PlexTrack
  deriving DecidableEq, Repr

/-- Modelled from the spec: the remote service's title search
`music_library.searchTracks(title=value)` (an opaque client boundary; §6:
"track search by title").  A boolean value never matches a title. -/
def searchTracksTitle (lib : PlexLibrary) (value : SVal) : List PlexTrack :=
  lib.tracks.filter fun t => match value with
    | .s v => t.title == v
    | .b _ => false

/-- Modelled from the spec: the remote service's rating filter
`searchTracks(track.userRating != v)` (§4.3: "rating not equal to 0, i.e.
any rated track") — a track with no rating set does not match. -/
def searchTracksRatingNe (lib : PlexLibrary) (v : ℚ) : List PlexTrack :=
  lib.tracks.filter fun t => match t.userRating with
    | some r => decide (r ≠ v)
    | none => false

/-- Modelled from the spec: the numeric literal the remote service parses
from the rating-filter value string (only digit runs occur here; the
translated boolean shorthand is the literal "0"). -/
def parseRatLit (s : String) : ℚ :=
  ((s.toList.foldl (fun acc c => if c.isDigit then acc * 10 + (c.toNat - 48) else acc)
    (0 : ℕ) : ℕ) : ℚ)

/-- Result of `PlexPlayer.search_tracks`: the `title` branch returns the
backend-native track objects unconverted, the `rating` branch returns
converted `AudioTag` records. -/
inductive PlexSearchResult where
  | native : List PlexTrack → PlexSearchResult
  | tags : List (AudioTag String) → PlexSearchResult
  deriving DecidableEq, Repr

/-- The rating-filter value after the `if value is True: value = "0"`
translation, as the number the remote service compares against. -/
def ratingFilterValue (value : SVal) : ℚ :=
  match (if value = .b true then SVal.s "0" else value) with
  | .s str => parseRatLit str
  | .b _ => 0

/-- `PlexPlayer.search_tracks(key, value)`: empty/falsy value raises
`ValueError`; `title` returns the library matches as-is; `rating` first
translates the boolean shorthand `True` to the literal `"0"`, filters the
library by rating-not-equal, and converts each match through
`read_track_metadata`; any other key raises `KeyError`. -/
def search_tracks (lib : PlexLibrary) (key : String) (value : SVal) :
    Except PyErr PlexSearchResult :=
  if value.truthy = false then .error (.valueError "value can not be empty.")
  else if key = "title" then .ok (.native (searchTracksTitle lib value))
  else if key = "rating" then
    match (searchTracksRatingNe lib (ratingFilterValue value)).mapM read_track_metadata with
    | .ok tags => .ok (.tags tags)
    | .error e => .error e
  else .error (.keyError key)

/-- A mutation call issued to the remote service. -/
inductive PlexEffect where
  /-- `track.edit(userRating.value = r)` on the track with the given key. -/
  | editRating : String → ℚ → PlexEffect
  /-- `plex_api_connection.createPlaylist(title, items)`. -/
  | createPlaylist : String → List String → PlexEffect
  /-- `playlist.addItems(track)`. -/
  | addItems : String → String → PlexEffect
  /-- `playlist.removeItem(track)`. -/
  | removeItem : String → String → PlexEffect
  deriving DecidableEq, Repr

/-- `PlexPlayer.create_playlist(title, tracks)`: returns `None` without any
creation call under dry-run; rejects a missing or empty track list (logged,
`None`); otherwise issues the creation call and returns the new playlist
(identified here by its title). -/
def create_playlist (dry_run : Bool) (title : String)
    (tracks : Option (List PlexTrack)) : Option String × List PlexEffect :=
  if dry_run then (none, [])
  else
    match tracks with
    | none => (none, [])
    | some ts =>
      if ts.length = 0 then (none, [])
      else (some title, [.createPlaylist title (ts.map (fun t => t.key))])

/-- `PlexPlayer.update_playlist(playlist, track, present)`: add when
`present`, remove otherwise; in both branches the decision is logged and the
mutation call is gated by dry-run. -/
def update_playlist (dry_run : Bool) (playlistTitle : String) (track : PlexTrack)
    (present : Bool) : List PlexEffect :=
  if present then
    if dry_run then [] else [.addItems playlistTitle track.key]
  else
    if dry_run then [] else [.removeItem playlistTitle track.key]

/-- `PlexPlayer.update_rating(track, rating)`: under dry-run only the log
line runs.  Otherwise the direct mutation `track.edit(...)` is attempted;
`editOk` models whether the passed track object has an `edit` attribute
(`False` e.g. for a detached `AudioTag`, making the call raise
`AttributeError`).  The fallback re-locates the track by title search
filtered to `s.key == track.ID` and takes element `[0]` unguarded: an empty
match list raises `IndexError`. -/
def update_rating (dry_run : Bool) (lib : PlexLibrary) (editOk : Bool)
    (track : AudioTag String) (rating : ℚ) : Except PyErr (List PlexEffect) :=
  if dry_run then .ok []
  else if editOk then
    .ok [.editRating track.ID (MediaPlayer.get_native_rating rating_maximum rating)]
  else
    match (searchTracksTitle lib (.s track.title)).filter (fun s => s.key == track.ID) with
    | [] => .error .indexError
    | song :: _ =>
      .ok [.editRating song.key (MediaPlayer.get_native_rating rating_maximum rating)]

/-- Result of one authentication attempt `MyPlexAccount(...)`:  success,
`NotFound` (bad credentials) or `BadRequest` (malformed request). -/
inductive AuthResult where
  | ok
  | notFound
  | badRequest
  deriving DecidableEq, Repr

/-- Observable state when the authentication `while` loop of
`PlexPlayer.connect` ends: how many `MyPlexAccount` attempts ran, how many
`getpass` prompts were shown, whether `self.account` was set, and the final
value of `connection_attempts_left`. -/
structure LoopResult where
  attempts : Nat
  prompts : Nat
  accountSet : Bool
  attemptsLeft : Nat
  deriving DecidableEq, Repr

/-- The authentication `while` loop of `PlexPlayer.connect`, parameterized
by the authentication oracles (`authPw`/`authTok` model `MyPlexAccount` by
password resp. token) and by the queue of passwords the user would type at
successive `getpass` prompts.  Per iteration: when both password and token
are empty a prompt is consumed; authentication goes by password if present,
else by token; success breaks; `NotFound` clears the password and decrements
the budget; `BadRequest` decrements the budget keeping credentials; with
neither credential the loop breaks without an attempt. -/
def connectLoop (authPw authTok : String → AuthResult) :
    List String → String → String → Nat → Nat → Nat → LoopResult
  | _, _, _, 0, att, pr => ⟨att, pr, false, 0⟩
  | queue, password, token, n + 1, att, pr =>
    let prompting := password = "" && token = ""
    let password' := if prompting then queue.headD "" else password
    let queue' := if prompting then queue.tail else queue
    let pr' := if prompting then pr + 1 else pr
    if password' ≠ "" then
      match authPw password' with
      | .ok => ⟨att + 1, pr', true, n + 1⟩
      | .notFound => connectLoop authPw authTok queue' "" token n (att + 1) pr'
      | .badRequest => connectLoop authPw authTok queue' password' token n (att + 1) pr'
    else if token ≠ "" then
      match authTok token with
      | .ok => ⟨att + 1, pr', true, n + 1⟩
      | .notFound => connectLoop authPw authTok queue' password' token n (att + 1) pr'
      | .badRequest => connectLoop authPw authTok queue' password' token n (att + 1) pr'
    else ⟨att, pr', false, n + 1⟩

/-- Outcome of the authentication phase of `PlexPlayer.connect`. -/
structure ConnectOutcome where
  attempts : Nat
  prompts : Nat
  /-- `exit(1)` reached right after the loop
  (`connection_attempts_left == 0 or self.account is None`). -/
  exited : Bool
  deriving DecidableEq, Repr

/-- The authentication phase of `PlexPlayer.connect(server, username,
password, token)`: runs the attempt loop with the budget
`maximum_connection_attempts = 3`, then terminates the process iff the
budget was exhausted or no account was obtained.  (Server and library
resolution follow only when this phase survives.) -/
def connect (authPw authTok : String → AuthResult) (promptQueue : List String)
    (password token : String) : ConnectOutcome :=
  let st := connectLoop authPw authTok promptQueue password token
    maximum_connection_attempts 0 0
  { attempts := st.attempts
    prompts := st.prompts
    exited := decide (st.attemptsLeft = 0) || !st.accountSet }

end PlexPlayer

/-! ## Backend identity: `__eq__` and `__hash__` -/

/-- The two concrete backend classes of the program. -/
inductive PlayerKind where
  | mediaMonkey
  | plexPlayer
  deriving DecidableEq, Repr

/-- The static `name()` of each backend class. -/
def PlayerKind.pyName : PlayerKind → String
  | .mediaMonkey => "MediaMonkey"
  | .plexPlayer => "PlexPlayer"

/-- A live backend instance: its concrete class and its object identity
(`id()`; distinct live objects have distinct identities, so instance
equality of this record models Python's `is`). -/
structure PlayerInstance where
  kind : PlayerKind
  objId : Nat
  deriving DecidableEq, Repr

/-- ASCII lowercasing of one character (`str.lower` on the names in play). -/
def charToLower (c : Char) : Char :=
  if 65 ≤ c.toNat ∧ c.toNat ≤ 90 then Char.ofNat (c.toNat + 32) else c

/-- `str.lower()` as a character list (the names involved are ASCII). -/
def pyLower (s : String) : List Char := s.toList.map charToLower

/-- Python `a == b` on backend instances.  `MediaPlayer.__eq__` returns
`NotImplemented` unless `isinstance(other, type(self))`; when both sides
return `NotImplemented`, Python falls back to identity (`a is b`).
Otherwise the lowered `name()` strings are compared. -/
def pyEq (a b : PlayerInstance) : Bool :=
  if a.kind = b.kind then pyLower a.kind.pyName == pyLower b.kind.pyName
  else a == b

/-- `MediaPlayer.__hash__` is `hash(self.name().lower())`: the hash is a
function of exactly the lowered name, modelled by the lowered name itself
(Python's string hash applied to equal strings is equal). -/
def pyHash (a : PlayerInstance) : List Char := pyLower a.kind.pyName

/-! ## Concrete inputs used by the witnesses -/

/-- A `Songs` row: track "t1" with native rating 50. -/
def exSong1 : MediaMonkey.SongRow :=
  ⟨10, some "t1", some "a1", some "al1", some 1, some 50, some "/music/t1.mp3"⟩

/-- A `Songs` row: track "t2" with native rating 100. -/
def exSong2 : MediaMonkey.SongRow :=
  ⟨11, some "t2", some "a2", some "al2", some 2, some 100, some "/music/t2.mp3"⟩

/-- The spec's example tree: root playlist `P1` (non-auto, two member
tracks) with child `P2` (auto, whose underlying membership rows exist). -/
def exDB : MediaMonkey.MMDB :=
  { songs := [exSong1, exSong2]
    playlists := [⟨1, "P1", -1, 0⟩, ⟨2, "P2", 1, 1⟩]
    playlistSongs := [⟨1, 10, 1⟩, ⟨1, 11, 2⟩, ⟨2, 10, 1⟩, ⟨2, 11, 2⟩] }

/-- Expected traversal output for `P1`: both member tracks in sequence
order, with normalized ratings 1/2 and 1. -/
def exP1 : Playlist :=
  { name := "P1", parent_name := "", is_auto_playlist := false
    tracks := [⟨"a1", "al1", "t1", "/music/t1.mp3", 1/2, 10, 1⟩,
               ⟨"a2", "al2", "t2", "/music/t2.mp3", 1, 11, 2⟩] }

/-- Expected traversal output for `P2`: flagged auto, tracks left empty. -/
def exP2 : Playlist :=
  { name := "P2", parent_name := "P1", is_auto_playlist := true, tracks := [] }

/-- An empty MediaMonkey database. -/
def emptyDB : MediaMonkey.MMDB := ⟨[], [], []⟩

/-- A raw-SQL executor returning no rows. -/
def noRows : String → List MediaMonkey.SongRow := fun _ => []

/-- A native remote track rated 10 (the backend maximum). -/
def exPlexTrack : PlexPlayer.PlexTrack :=
  ⟨"a", "al", "t", ["/m/t.mp3"], some 10, 1, "key1"⟩

/-- A one-track remote library. -/
def exLib : PlexPlayer.PlexLibrary := ⟨[exPlexTrack]⟩

/-- An empty remote library. -/
def emptyLib : PlexPlayer.PlexLibrary := ⟨[]⟩

/-- A detached tag (no `edit` attribute) whose identity matches no library
track. -/
def exDetachedTag : AudioTag String := ⟨"a", "al", "t", "/m/t.mp3", 1, "missing-key", 1⟩

/-- Decidable equality of `Except` results (not derived by core). -/
instance {ε α : Type} [DecidableEq ε] [DecidableEq α] : DecidableEq (Except ε α) := fun a b =>
  match a, b with
  | .ok x, .ok y =>
    if h : x = y then isTrue (by rw [h]) else isFalse (by intro hc; cases hc; exact h rfl)
  | .error x, .error y =>
    if h : x = y then isTrue (by rw [h]) else isFalse (by intro hc; cases hc; exact h rfl)
  | .ok _, .error _ => isFalse (by intro hc; cases hc)
  | .error _, .ok _ => isFalse (by intro hc; cases hc)

/-! ## Helper lemmas -/

/-- `charListLe` is total. -/
theorem charListLe_total : ∀ as bs, charListLe as bs = true ∨ charListLe bs as = true
  | [], _ => Or.inl rfl
  | _ :: _, [] => Or.inr rfl
  | a :: as, b :: bs => by
    simp only [charListLe]
    rcases Nat.lt_trichotomy a.toNat b.toNat with h | h | h
    · simp [h]
    · simpa [h, Nat.lt_irrefl] using charListLe_total as bs
    · simp [h, Nat.lt_asymm h]

/-- `charListLe` is transitive. -/
theorem charListLe_trans : ∀ as bs cs, charListLe as bs = true → charListLe bs cs = true →
    charListLe as cs = true
  | [], _, _, _, _ => rfl
  | _ :: _, [], _, h1, _ => by simp [charListLe] at h1
  | _ :: _, _ :: _, [], _, h2 => by simp [charListLe] at h2
  | a :: as, b :: bs, c :: cs, h1, h2 => by
    simp only [charListLe] at h1 h2 ⊢
    rcases Nat.lt_trichotomy a.toNat b.toNat with hab | hab | hab
    · rcases Nat.lt_trichotomy b.toNat c.toNat with hbc | hbc | hbc
      · have hac : a.toNat < c.toNat := by omega
        simp [hac]
      · have hac : a.toNat < c.toNat := by omega
        simp [hac]
      · have g1 : ¬ b.toNat < c.toNat := by omega
        simp [g1, hbc] at h2
    · rcases Nat.lt_trichotomy b.toNat c.toNat with hbc | hbc | hbc
      · have hac : a.toNat < c.toNat := by omega
        simp [hac]
      · have e1 : ¬ a.toNat < c.toNat := by omega
        have e2 : ¬ c.toNat < a.toNat := by omega
        have f1 : ¬ a.toNat < b.toNat := by omega
        have f2 : ¬ b.toNat < a.toNat := by omega
        have g1 : ¬ b.toNat < c.toNat := by omega
        have g2 : ¬ c.toNat < b.toNat := by omega
        simp [f1, f2] at h1
        simp [g1, g2] at h2
        simp [e1, e2]
        exact charListLe_trans as bs cs h1 h2
      · have g1 : ¬ b.toNat < c.toNat := by omega
        simp [g1, hbc] at h2
    · have f1 : ¬ a.toNat < b.toNat := by omega
      simp [f1, hab] at h1

/-- If `mapM` over `Except` succeeded, every output element is the successful
image of some input element. -/
theorem mapM_mem_of_ok {α β : Type} (f : α → Except PyErr β) :
    ∀ (l : List α) (ys : List β), l.mapM f = .ok ys → ∀ y ∈ ys, ∃ x ∈ l, f x = .ok y := by
  intro l
  induction l with
  | nil =>
    intro ys h y hy
    simp only [List.mapM_nil, pure, Except.pure] at h
    cases h
    cases hy
  | cons a l ih =>
    intro ys h y hy
    rw [List.mapM_cons] at h
    cases hfa : f a with
    | error e => rw [hfa] at h; cases h
    | ok b =>
      rw [hfa] at h
      cases hrest : l.mapM f with
      | error e =>
        rw [hrest] at h
        cases h
      | ok bs =>
        rw [hrest] at h
        simp only [bind, Except.bind, pure, Except.pure] at h
        cases h
        rcases List.mem_cons.mp hy with hyb | hyl
        · exact ⟨a, List.mem_cons_self a l, hyb ▸ hfa⟩
        · rcases ih bs hrest y hyl with ⟨x, hx, hfx⟩
          exact ⟨x, List.mem_cons_of_mem a hx, hfx⟩

/-- If `f` succeeds on every element, `mapM` over `Except` succeeds. -/
theorem mapM_ok_of_forall_ok {α β : Type} (f : α → Except PyErr β) :
    ∀ l : List α, (∀ x ∈ l, ∃ y, f x = .ok y) → ∃ ys, l.mapM f = .ok ys := by
  intro l
  induction l with
  | nil => exact fun _ => ⟨[], rfl⟩
  | cons a l ih =>
    intro h
    rcases h a (List.mem_cons_self a l) with ⟨b, hb⟩
    rcases ih (fun x hx => h x (List.mem_cons_of_mem a hx)) with ⟨bs, hbs⟩
    refine ⟨b :: bs, ?_⟩
    rw [List.mapM_cons, hb, hbs]
    rfl

/-! ## Claim theorems -/

/-- C1: the claim says local-storage `update_rating` against the read-only
connection that `connect` opens "performs no database mutation and does not
raise; it only logs".  On the code, `connect` stores the PLAIN path in
`self.db_path` (the `mode=ro` suffix exists only in the local `uri`
variable), so the guard `'mode=ro' in str(self.db_path)` never fires for an
ordinary path; the write is attempted on the read-only connection, sqlite
raises `OperationalError`, and evaluating the handler clause
`except sqlite3.OperationalError` raises `NameError` (the `import sqlite3`
is local to `connect`), which propagates to the caller.  This theorem
evaluates the failing input: the guard is false and the call raises instead
of logging and returning. -/
theorem C1_readonly_guard_never_fires :
    pyStrContains "C:/Users/u/AppData/Roaming/MediaMonkey/MM.DB" "mode=ro" = false ∧
    MediaMonkey.update_rating false
        (MediaMonkey.connect "C:/Users/u/AppData/Roaming/MediaMonkey/MM.DB") 7 (1 / 2)
      = .raised (.nameError "sqlite3") := by
  constructor
  · decide
  · rfl

/-- C2 counterexample: `get_normed_rating` does NOT return a value in
`[0, 1]` for every native input — native `200` on the local backend's
maximum-100 scale normalizes to `2`. -/
theorem C2_counterexample :
    MediaPlayer.get_normed_rating 100 (some 200) = 2 ∧
    ¬ MediaPlayer.get_normed_rating 100 (some 200) ≤ 1 := by
  norm_num [MediaPlayer.get_normed_rating]

/-- C2 amended: for every native rating that does not exceed the backend
maximum `M > 0`, `get_normed_rating` lands in `[0, 1]`; and whenever the
input is absent or non-positive the result is exactly `0` (for any `M ≠ 0`
this part needs no bound). -/
theorem C2_normed_rating_in_unit_interval (M : ℚ) (rating : Option ℚ)
    (hM : 0 < M) (hle : rating.getD 0 ≤ M) :
    (0 ≤ MediaPlayer.get_normed_rating M rating ∧
      MediaPlayer.get_normed_rating M rating ≤ 1) ∧
    ((rating = none ∨ rating.getD 0 ≤ 0) → MediaPlayer.get_normed_rating M rating = 0) := by
  unfold MediaPlayer.get_normed_rating
  by_cases h : rating.getD 0 ≤ 0
  · simp only [if_pos h]
    exact ⟨⟨by norm_num, by rw [zero_div]; norm_num⟩, fun _ => by rw [zero_div]⟩
  · simp only [if_neg h]
    push_neg at h
    refine ⟨⟨div_nonneg h.le hM.le, (div_le_one hM).mpr hle⟩, ?_⟩
    rintro (hn | hx)
    · rw [hn] at h; norm_num at h
    · exact absurd hx (not_le.mpr h)

/-- C2 witness: native 50 on the maximum-100 scale. -/
theorem C2_witness :
    (0 ≤ MediaPlayer.get_normed_rating 100 (some 50) ∧
      MediaPlayer.get_normed_rating 100 (some 50) ≤ 1) ∧
    ((some (50 : ℚ) = none ∨ (some (50 : ℚ)).getD 0 ≤ 0) →
      MediaPlayer.get_normed_rating 100 (some 50) = 0) :=
  C2_normed_rating_in_unit_interval 100 (some 50) (by norm_num) (by norm_num)

/-- C3 counterexample: under dry-run the local backend's `create_playlist`
does not "return an empty/absent result" — it raises `NotImplementedError`
unconditionally. -/
theorem C3_counterexample :
    MediaMonkey.create_playlist true "New Playlist" [] = .error .notImplementedError := rfl

/-- C3 amended: with dry-run active, the remote backend's `create_playlist`
returns `None` with no creation call, and `update_rating` /
`update_playlist` of both backends issue no backend mutation call — but the
local backend's `create_playlist` and `update_playlist` are unimplemented
stubs that raise `NotImplementedError` regardless of dry-run (hence also
never mutate). -/
theorem C3_dry_run_no_mutation :
    (∀ (title : String) (tracks : Option (List PlexPlayer.PlexTrack)),
      PlexPlayer.create_playlist true title tracks = (none, [])) ∧
    (∀ (lib : PlexPlayer.PlexLibrary) (editOk : Bool) (track : AudioTag String) (rating : ℚ),
      PlexPlayer.update_rating true lib editOk track rating = .ok []) ∧
    (∀ (pt : String) (track : PlexPlayer.PlexTrack) (present : Bool),
      PlexPlayer.update_playlist true pt track present = []) ∧
    (∀ (st : MediaMonkey.MMState) (trackID : Int) (rating : ℚ),
      MediaMonkey.update_rating true st trackID rating = .dryRunSkipped) ∧
    (∀ (dr : Bool) (title : String) (tracks : List (AudioTag Int)),
      MediaMonkey.create_playlist dr title tracks = .error .notImplementedError) ∧
    (∀ (dr : Bool) (pl : Playlist) (track : AudioTag Int) (present : Bool),
      MediaMonkey.update_playlist dr pl track present = .error .notImplementedError) := by
  refine ⟨fun _ _ => rfl, fun _ _ _ _ => rfl, ?_, fun _ _ _ => rfl, fun _ _ _ => rfl,
    fun _ _ _ _ => rfl⟩
  intro pt track present
  cases present <;> rfl

/-- C4: for both backends, `search_tracks` with an empty/falsy value raises
`ValueError` whatever the key, and a truthy value with a key outside the
backend's recognized mode vocabulary raises `KeyError` (the local backend
recognizes title/rating/query, the remote backend title/rating). -/
theorem C4_search_tracks_invalid_arguments (db : MediaMonkey.MMDB)
    (rawExec : String → List MediaMonkey.SongRow) (lib : PlexPlayer.PlexLibrary)
    (key : String) (value : SVal) :
    (value.truthy = false →
      MediaMonkey.search_tracks db rawExec key value
          = .error (.valueError "value can not be empty.") ∧
      PlexPlayer.search_tracks lib key value
          = .error (.valueError "value can not be empty.")) ∧
    (value.truthy = true → key ≠ "title" → key ≠ "rating" → key ≠ "query" →
      MediaMonkey.search_tracks db rawExec key value = .error (.keyError key)) ∧
    (value.truthy = true → key ≠ "title" → key ≠ "rating" →
      PlexPlayer.search_tracks lib key value = .error (.keyError key)) := by
  refine ⟨fun hf => ?_, fun ht h1 h2 h3 => ?_, fun ht h1 h2 => ?_⟩
  · unfold MediaMonkey.search_tracks PlexPlayer.search_tracks
    rw [hf]
    exact ⟨rfl, rfl⟩
  · unfold MediaMonkey.search_tracks
    rw [ht]
    simp [h1, h2, h3]
  · unfold PlexPlayer.search_tracks
    rw [ht]
    simp [h1, h2]

/-- C4 witness: empty value on the local backend, unrecognized key on the
remote backend. -/
theorem C4_witness :
    MediaMonkey.search_tracks emptyDB noRows "title" (.s "")
        = .error (.valueError "value can not be empty.") ∧
    PlexPlayer.search_tracks emptyLib "bogus" (.s "x") = .error (.keyError "bogus") :=
  ⟨((C4_search_tracks_invalid_arguments emptyDB noRows emptyLib "title" (.s "")).1
      (by decide)).1,
   (C4_search_tracks_invalid_arguments emptyDB noRows emptyLib "bogus" (.s "x")).2.2
      (by decide) (by decide) (by decide)⟩

/-- Any playlist the traversal flags auto-generated has empty tracks. -/
theorem read_child_auto_empty (db : MediaMonkey.MMDB) :
    ∀ (fuel : Nat) (pid : Int) (pname : String) (pl : Playlist),
      pl ∈ MediaMonkey.read_child_playlists db fuel pid pname →
      pl.is_auto_playlist = true → pl.tracks = [] := by
  intro fuel
  induction fuel with
  | zero =>
    intro pid pname pl h
    simp [MediaMonkey.read_child_playlists] at h
  | succ n ih =>
    intro pid pname pl h hauto
    rw [MediaMonkey.read_child_playlists] at h
    rcases List.mem_flatMap.mp h with ⟨row, hrow, hmem⟩
    rcases List.mem_cons.mp hmem with hhead | htail
    · subst hhead
      simp only [Playlist.is_auto_playlist] at hauto
      simp only [Playlist.tracks, hauto, if_pos]
    · exact ih row.IDPlaylist row.PlaylistName pl htail hauto

/-- Any non-auto playlist the traversal returns carries exactly the
membership rows of its database row, read in `SongOrder` and converted. -/
theorem read_child_nonauto_tracks (db : MediaMonkey.MMDB) :
    ∀ (fuel : Nat) (pid : Int) (pname : String) (pl : Playlist),
      pl ∈ MediaMonkey.read_child_playlists db fuel pid pname →
      pl.is_auto_playlist = false →
      ∃ row ∈ db.playlists, pl.name = row.PlaylistName ∧
        pl.tracks
          = (MediaMonkey.playlistTrackRows db row.IDPlaylist).map
              MediaMonkey._row_to_audiotag := by
  intro fuel
  induction fuel with
  | zero =>
    intro pid pname pl h
    simp [MediaMonkey.read_child_playlists] at h
  | succ n ih =>
    intro pid pname pl h hnonauto
    rw [MediaMonkey.read_child_playlists] at h
    rcases List.mem_flatMap.mp h with ⟨row, hrow, hmem⟩
    rcases List.mem_cons.mp hmem with hhead | htail
    · subst hhead
      simp only [Playlist.is_auto_playlist] at hnonauto
      refine ⟨row, ?_, rfl, ?_⟩
      · have : row ∈ db.playlists.filter (fun r => r.ParentPlaylist == pid) :=
          (List.perm_insertionSort MediaMonkey.byNameLe _).mem_iff.mp hrow
        exact (List.mem_filter.mp this).1
      · simp only [Playlist.tracks, hnonauto, if_neg, Bool.false_eq_true,
          not_false_iff, if_false]
    · exact ih row.IDPlaylist row.PlaylistName pl htail hnonauto

/-- The sibling order produced by the child-playlist query is alphabetical
(`ORDER BY PlaylistName` under BINARY collation). -/
theorem childRows_names_sorted (db : MediaMonkey.MMDB) (pid : Int) :
    List.Pairwise (fun a b : String => strLe a b = true)
      ((MediaMonkey.childRows db pid).map fun r => r.PlaylistName) := by
  rw [List.pairwise_map]
  letI : IsTotal MediaMonkey.PlaylistRow MediaMonkey.byNameLe :=
    ⟨fun a b => charListLe_total _ _⟩
  letI : IsTrans MediaMonkey.PlaylistRow MediaMonkey.byNameLe :=
    ⟨fun a b c => charListLe_trans _ _ _⟩
  exact List.sorted_insertionSort MediaMonkey.byNameLe _

/-- C5: the local traversal returns every playlist in parent-before-children
order with alphabetical siblings; auto playlists keep empty tracks even when
membership rows exist; non-auto playlists carry their membership rows in
sequence order.  The last conjunct runs the spec's example tree (`P1`
non-auto with two member tracks; child `P2` auto with membership rows
present) and obtains `[P1(tracks=[t1,t2]), P2(tracks=[])]`. -/
theorem C5_read_playlists_traversal :
    (∀ (db : MediaMonkey.MMDB) (fuel : Nat) (pid : Int) (pname : String) (pl : Playlist),
      pl ∈ MediaMonkey.read_child_playlists db fuel pid pname →
      pl.is_auto_playlist = true → pl.tracks = []) ∧
    (∀ (db : MediaMonkey.MMDB) (fuel : Nat) (pid : Int) (pname : String) (pl : Playlist),
      pl ∈ MediaMonkey.read_child_playlists db fuel pid pname →
      pl.is_auto_playlist = false →
      ∃ row ∈ db.playlists, pl.name = row.PlaylistName ∧
        pl.tracks
          = (MediaMonkey.playlistTrackRows db row.IDPlaylist).map
              MediaMonkey._row_to_audiotag) ∧
    (∀ (db : MediaMonkey.MMDB) (pid : Int),
      List.Pairwise (fun a b : String => strLe a b = true)
        ((MediaMonkey.childRows db pid).map fun r => r.PlaylistName)) ∧
    MediaMonkey.read_playlists exDB = [exP1, exP2] := by
  refine ⟨fun db => read_child_auto_empty db, fun db => read_child_nonauto_tracks db,
    childRows_names_sorted, ?_⟩
  simp [MediaMonkey.read_playlists, MediaMonkey.read_child_playlists,
    MediaMonkey.childRows, MediaMonkey.playlistTrackRows, List.insertionSort,
    List.orderedInsert, exDB, exSong1, exSong2, exP1, exP2,
    MediaMonkey._row_to_audiotag, MediaPlayer.get_normed_rating,
    MediaMonkey.rating_maximum, MediaMonkey.byNameLe, MediaMonkey.byOrderLe,
    strLe, charListLe, Playlist.mk.injEq, AudioTag.mk.injEq]
  norm_num

/-- C5 witness: the auto playlist of the example tree has empty tracks. -/
theorem C5_witness : exP2.tracks = [] :=
  C5_read_playlists_traversal.1 exDB 3 1 "P1" exP2 (by decide) (by decide)

/-- C6: `search_tracks("rating", True)` — the local backend returns exactly
the songs with native `Rating > 0` converted to tags, and each returned tag
carries native/100 as its normalized rating; the remote backend translates
the boolean shorthand to the rating-not-equal-to-0 predicate, converts each
match through `read_track_metadata`, and (ratings on the native scale being
non-negative) every returned tag carries native/10 with the native rating
strictly positive. -/
theorem C6_search_rating_true_positive (db : MediaMonkey.MMDB)
    (rawExec : String → List MediaMonkey.SongRow) (lib : PlexPlayer.PlexLibrary)
    (hpos : ∀ t ∈ lib.tracks, ∀ r : ℚ, t.userRating = some r → 0 ≤ r)
    (hloc : ∀ t ∈ lib.tracks, t.locations ≠ []) :
    MediaMonkey.search_tracks db rawExec "rating" (.b true)
      = .ok ((db.songs.filter (fun s => MediaMonkey.sqlGtZero s.Rating)).map
          MediaMonkey._row_to_audiotag) ∧
    (∀ tag ∈ (db.songs.filter (fun s => MediaMonkey.sqlGtZero s.Rating)).map
        MediaMonkey._row_to_audiotag,
      ∃ n : ℚ, 0 < n ∧ tag.rating = n / 100) ∧
    (∃ tags,
      (PlexPlayer.searchTracksRatingNe lib 0).mapM PlexPlayer.read_track_metadata
        = .ok tags ∧
      PlexPlayer.search_tracks lib "rating" (.b true) = .ok (.tags tags) ∧
      ∀ tag ∈ tags, ∃ n : ℚ, 0 < n ∧ tag.rating = n / 10) := by
  refine ⟨rfl, ?_, ?_⟩
  · intro tag htag
    rcases List.mem_map.mp htag with ⟨s, hs, rfl⟩
    have hfilter := (List.mem_filter.mp hs).2
    cases hr : s.Rating with
    | none => rw [hr] at hfilter; simp [MediaMonkey.sqlGtZero] at hfilter
    | some n =>
      rw [hr] at hfilter
      have hn : 0 < n := by
        simpa [MediaMonkey.sqlGtZero] using hfilter
      refine ⟨n, hn, ?_⟩
      simp [MediaMonkey._row_to_audiotag, MediaPlayer.get_normed_rating, hr,
        MediaMonkey.rating_maximum, not_le.mpr hn]
  · have hex : ∀ x ∈ PlexPlayer.searchTracksRatingNe lib 0,
        ∃ y, PlexPlayer.read_track_metadata x = .ok y := by
      intro x hx
      have hmem : x ∈ lib.tracks :=
        (List.mem_filter.mp hx).1
      cases hl : x.locations with
      | nil => exact absurd hl (hloc x hmem)
      | cons loc locs =>
        exact ⟨_, by rw [PlexPlayer.read_track_metadata, hl]⟩
    obtain ⟨tags, htags⟩ := mapM_ok_of_forall_ok _ _ hex
    have hn : ("0".toList.foldl
        (fun acc c => if c.isDigit then acc * 10 + (c.toNat - 48) else acc) (0 : ℕ)) = 0 := by
      decide
    have hcast : PlexPlayer.ratingFilterValue (.b true)
        = (("0".toList.foldl
            (fun acc c => if c.isDigit then acc * 10 + (c.toNat - 48) else acc) (0 : ℕ) : ℕ) : ℚ) :=
      rfl
    have h0 : PlexPlayer.ratingFilterValue (.b true) = 0 := by
      rw [hcast, hn]
      norm_num
    refine ⟨tags, htags, ?_, ?_⟩
    · show (match (PlexPlayer.searchTracksRatingNe lib
            (PlexPlayer.ratingFilterValue (.b true))).mapM PlexPlayer.read_track_metadata with
        | .ok t => Except.ok (PlexPlayer.PlexSearchResult.tags t)
        | .error e => Except.error e) = Except.ok (PlexPlayer.PlexSearchResult.tags tags)
      rw [h0, htags]
    · intro tag htag
      obtain ⟨x, hxmem, hxok⟩ := mapM_mem_of_ok _ _ tags htags tag htag
      have hmem : x ∈ lib.tracks := (List.mem_filter.mp hxmem).1
      have hfilter := (List.mem_filter.mp hxmem).2
      cases hr : x.userRating with
      | none => rw [hr] at hfilter; simp at hfilter
      | some r =>
        rw [hr] at hfilter
        have hne : r ≠ 0 := by simpa using hfilter
        have hge : 0 ≤ r := hpos x hmem r hr
        have hpos' : 0 < r := lt_of_le_of_ne hge (Ne.symm hne)
        refine ⟨r, hpos', ?_⟩
        cases hl : x.locations with
        | nil => rw [PlexPlayer.read_track_metadata, hl] at hxok; cases hxok
        | cons loc locs =>
          rw [PlexPlayer.read_track_metadata, hl] at hxok
          cases hxok
          simp [MediaPlayer.get_normed_rating, hr, PlexPlayer.rating_maximum,
            not_le.mpr hpos']

/-- C6 witness: the example library's single track has native rating 10 on
the maximum-10 scale, and the local example database holds tracks with
native ratings 50 and 100. -/
theorem C6_witness :
    MediaMonkey.search_tracks exDB noRows "rating" (.b true)
      = .ok ((exDB.songs.filter (fun s => MediaMonkey.sqlGtZero s.Rating)).map
          MediaMonkey._row_to_audiotag) ∧
    (∃ tags,
      (PlexPlayer.searchTracksRatingNe exLib 0).mapM PlexPlayer.read_track_metadata
        = .ok tags ∧
      PlexPlayer.search_tracks exLib "rating" (.b true) = .ok (.tags tags) ∧
      ∀ tag ∈ tags, ∃ n : ℚ, 0 < n ∧ tag.rating = n / 10) := by
  have h := C6_search_rating_true_positive exDB noRows exLib
    (by
      intro t ht r hr
      simp only [exLib, exPlexTrack, List.mem_singleton] at ht
      subst ht
      have := Option.some.inj hr
      subst this
      norm_num)
    (by
      intro t ht
      simp only [exLib, exPlexTrack, List.mem_singleton] at ht
      subst ht
      simp)
  exact ⟨h.1, h.2.2⟩

/-- C7: remote `connect` with no token and a wrong (non-empty) password at
every prompt performs exactly 3 authentication attempts, prompts 3 times
(each bad-credentials failure clears the stored password, so the next
iteration re-prompts), and then terminates the process. -/
theorem C7_connect_exhausts_three_attempts
    (authPw authTok : String → PlexPlayer.AuthResult)
    (p1 p2 p3 : String) (rest : List String)
    (h1 : p1 ≠ "") (h2 : p2 ≠ "") (h3 : p3 ≠ "")
    (hfail : ∀ s, authPw s = .notFound) :
    PlexPlayer.connect authPw authTok (p1 :: p2 :: p3 :: rest) "" ""
      = { attempts := 3, prompts := 3, exited := true } := by
  simp [PlexPlayer.connect, PlexPlayer.maximum_connection_attempts,
    PlexPlayer.connectLoop, h1, h2, h3, hfail]

/-- C7 witness: the wrong password "x" typed at all three prompts. -/
theorem C7_witness :
    PlexPlayer.connect (fun _ => .notFound) (fun _ => .ok) ["x", "x", "x"] "" ""
      = { attempts := 3, prompts := 3, exited := true } :=
  C7_connect_exhausts_three_attempts (fun _ => .notFound) (fun _ => .ok)
    "x" "x" "x" [] (by decide) (by decide) (by decide) (fun _ => rfl)

/-- C8: two backend instances compare equal — and hash identically — exactly
when their `name()` values match case-insensitively, independent of object
identity.  (When the `isinstance` gate of `__eq__` fails, both sides return
`NotImplemented` and Python falls back to identity; the two concrete
backends' names differ case-insensitively, so the equivalence still holds on
every pair of instances.) -/
theorem C8_eq_and_hash_iff_names_match (a b : PlayerInstance) :
    (pyEq a b = true ↔ pyLower a.kind.pyName = pyLower b.kind.pyName) ∧
    (pyHash a = pyHash b ↔ pyLower a.kind.pyName = pyLower b.kind.pyName) := by
  have names_ne : ∀ k1 k2 : PlayerKind, k1 ≠ k2 →
      pyLower k1.pyName ≠ pyLower k2.pyName := by
    intro k1 k2 hne
    cases k1 <;> cases k2 <;> first | exact absurd rfl hne | decide
  constructor
  · unfold pyEq
    by_cases hk : a.kind = b.kind
    · rw [if_pos hk, hk]
      simp
    · rw [if_neg hk]
      constructor
      · intro hab
        have hEq : a = b := by
          have := (beq_iff_eq (a := a) (b := b)).mp hab
          exact this
        exact absurd (congrArg PlayerInstance.kind hEq) hk
      · intro hnames
        exact absurd hnames (names_ne _ _ hk)
  · exact Iff.rfl

/-- C9: the remote backend's `title` search returns the native library
matches unconverted, while the `rating` search returns only converted
`AudioTag` records — each produced through `read_track_metadata` — so the
two modes return differently shaped results. -/
theorem C9_title_native_rating_converted (lib : PlexPlayer.PlexLibrary)
    (value : SVal) (hv : value.truthy = true) :
    PlexPlayer.search_tracks lib "title" value
      = .ok (.native (PlexPlayer.searchTracksTitle lib value)) ∧
    (∀ tags, (PlexPlayer.searchTracksRatingNe lib
        (PlexPlayer.ratingFilterValue value)).mapM PlexPlayer.read_track_metadata = .ok tags →
      PlexPlayer.search_tracks lib "rating" value = .ok (.tags tags)) ∧
    (∀ res, PlexPlayer.search_tracks lib "rating" value = .ok res →
      ∃ tags, res = .tags tags) := by
  refine ⟨?_, ?_, ?_⟩
  · unfold PlexPlayer.search_tracks
    rw [hv]
    rw [if_neg (by decide), if_pos rfl]
  · intro tags htags
    unfold PlexPlayer.search_tracks
    rw [hv]
    rw [if_neg (by decide), if_neg (by decide), if_pos rfl, htags]
  · intro res hres
    unfold PlexPlayer.search_tracks at hres
    rw [hv] at hres
    rw [if_neg (by decide), if_neg (by decide), if_pos rfl] at hres
    cases hmap : (PlexPlayer.searchTracksRatingNe lib
        (PlexPlayer.ratingFilterValue value)).mapM PlexPlayer.read_track_metadata with
    | ok t =>
      rw [hmap] at hres
      exact ⟨t, (Except.ok.inj hres).symm⟩
    | error e =>
      rw [hmap] at hres
      cases hres

/-- C9 witness: a non-empty title value on an empty library. -/
theorem C9_witness :
    PlexPlayer.search_tracks emptyLib "title" (.s "x")
      = .ok (.native (PlexPlayer.searchTracksTitle emptyLib (.s "x"))) :=
  (C9_title_native_rating_converted emptyLib (.s "x") (by decide)).1

/-- C10: with dry-run inactive, when the direct `track.edit` mutation fails
with `AttributeError` and no library track matches both the track's title
and its identity key, the fallback's unguarded `[0]` raises `IndexError`
rather than reporting a recoverable not-found result. -/
theorem C10_update_rating_fallback_index_error (lib : PlexPlayer.PlexLibrary)
    (track : AudioTag String) (rating : ℚ)
    (hmiss : (PlexPlayer.searchTracksTitle lib (.s track.title)).filter
        (fun s => s.key == track.ID) = []) :
    PlexPlayer.update_rating false lib false track rating = .error .indexError := by
  unfold PlexPlayer.update_rating
  rw [if_neg (by decide), if_neg (by decide), hmiss]

/-- C10 witness: an empty library never matches the detached tag. -/
theorem C10_witness :
    PlexPlayer.update_rating false emptyLib false exDetachedTag 1 = .error .indexError :=
  C10_update_rating_fallback_index_error emptyLib exDetachedTag 1 rfl

end PlexSync
